import Mathlib

/-!
Verification of the core inference orchestration of the housing-price
prediction app (`src/app.py`): payload construction, the authorization
header, transport-failure classification, and the defensive extraction of
the prediction from the service's nested JSON response.

The response body handed to the extractor is an arbitrary parsed JSON
value, modelled by `Json` below.  The extraction block
(`app.py` lines 140-175) probes it with Python's dynamic operations
(`in`, `len`, subscripting); those operations can raise, and the block
wraps everything in `try/except`, so each operation is modelled as a
function into `Except PyError`.
-/

/-- A parsed JSON value, as Python's `response.json()` produces it:
`null`, booleans, numbers, strings, lists and dicts (string keys,
represented as an association list; an actual Python dict has no
duplicate keys, and lookups below take the first match). Numbers are
modelled as rationals; every numeric value in the claims is exactly
representable. -/
inductive Json where
  | null : Json
  | bool (b : Bool) : Json
  | num (q : ℚ) : Json
  | str (s : String) : Json
  | arr (elems : List Json) : Json
  | obj (fields : List (String × Json)) : Json

/-- The Python exceptions the extraction block can raise internally;
all of them are caught by its `except Exception as format_error`. -/
inductive PyError where
  | typeError : PyError
  | indexError : PyError
  | keyError : PyError
  | valueError : PyError
deriving DecidableEq, Repr

/-- Look a key up in a dict (association list); first match. -/
def dictGet (fields : List (String × Json)) (key : String) : Option Json :=
  (fields.find? (fun kv => kv.1 == key)).map (fun kv => kv.2)

/-- `Json.isObj j` is true when `j` is a dict — Python's
`isinstance(j, dict)`. -/
def Json.isObj : Json → Bool
  | .obj _ => true
  | _ => false

/-- Python `key in x` for a string `key`: key membership for a dict,
element membership for a list, substring containment for a string;
`TypeError` otherwise. -/
def pyContains (x : Json) (key : String) : Except PyError Bool :=
  match x with
  | .obj fields => .ok (dictGet fields key).isSome
  | .arr elems => .ok (elems.any (fun j => match j with
      | .str s => key == s
      | _ => false))
  | .str s => .ok (decide (key.data <:+: s.data))
  | _ => .error .typeError

/-- Python `len(x)`: defined for lists, strings and dicts; `TypeError`
otherwise. -/
def pyLen (x : Json) : Except PyError Nat :=
  match x with
  | .arr elems => .ok elems.length
  | .str s => .ok s.length
  | .obj fields => .ok fields.length
  | _ => .error .typeError

/-- Python `x[i]` for a nonnegative integer `i`: list indexing
(`IndexError` out of bounds), string indexing (yielding a one-character
string), `KeyError` for a dict (an integer key never equals a JSON
string key), `TypeError` otherwise. -/
def pyIndex (x : Json) (i : Nat) : Except PyError Json :=
  match x with
  | .arr elems =>
    match elems.get? i with
    | some v => .ok v
    | none => .error .indexError
  | .str s =>
    match s.data.get? i with
    | some c => .ok (.str (String.mk [c]))
    | none => .error .indexError
  | .obj _ => .error .keyError
  | _ => .error .typeError

/-- Python `x[key]` for a string `key`: dict lookup (`KeyError` when
absent); lists and strings reject string subscripts with `TypeError`. -/
def pySubscript (x : Json) (key : String) : Except PyError Json :=
  match x with
  | .obj fields =>
    match dictGet fields key with
    | some v => .ok v
    | none => .error .keyError
  | _ => .error .typeError

/-- The numeric value the success branch computes with.  In the source,
`prediction_value * 100000` is followed by `f"${house_price:,.0f}"`:
a number works, a bool is an int (`True` is 1), while a string survives
the `*` (repetition) but the `,.0f` format raises `ValueError`, and a
list, dict or `None` raises `TypeError` (at the format or the `*`). -/
def pyToNumber (v : Json) : Except PyError ℚ :=
  match v with
  | .num q => .ok q
  | .bool b => .ok (if b then 1 else 0)
  | .str _ => .error .valueError
  | _ => .error .typeError

/-- The non-raising outcomes of the body of the inner `try`:
`prediction` (the success display at `app.py` lines 151-163, carrying
the raw value and the derived `house_price`), `missingData` (line 170),
and `missingPredictionField` (lines 166-168, carrying the displayed
`prediction_data`). -/
inductive BodyOutcome where
  | prediction (rawPrediction housePrice : ℚ) : BodyOutcome
  | missingData : BodyOutcome
  | missingPredictionField (payload : Json) : BodyOutcome

/-- Result of the whole extraction block, one constructor per
user-visible outcome in `app.py` lines 140-175: the three outcomes of
the inner body, plus `extractionError` (lines 172-175, carrying the
caught exception and the raw response shown for debugging). -/
inductive ExtractOutcome where
  | prediction (rawPrediction housePrice : ℚ) : ExtractOutcome
  | missingData : ExtractOutcome
  | missingPredictionField (payload : Json) : ExtractOutcome
  | extractionError (err : PyError) (raw : Json) : ExtractOutcome

/-- The body of the inner `try` (`app.py` lines 141-168), with Python's
short-circuit `and` made explicit:
```
if "data" in result and len(result["data"]) > 0:
    prediction_data = result["data"][0][1]
    if isinstance(prediction_data, dict) and "output_feature_0" in prediction_data:
        prediction_value = prediction_data["output_feature_0"]
        house_price = prediction_value * 100000
        ... success display ...
    else:
        ... warning, st.json(prediction_data) ...
else:
    ... "No prediction data found in response" ...
```
-/
def extractBody (result : Json) : Except PyError BodyOutcome := do
  let hasData ← pyContains result "data"
  if hasData then
    let dataField ← pySubscript result "data"
    let n ← pyLen dataField
    if n > 0 then
      let row ← pyIndex dataField 0
      let predictionData ← pyIndex row 1
      match predictionData with
      | .obj fields =>
        match dictGet fields "output_feature_0" with
        | some v =>
          let predictionValue ← pyToNumber v
          pure (.prediction predictionValue (predictionValue * 100000))
        | none => pure (.missingPredictionField predictionData)
      | _ => pure (.missingPredictionField predictionData)
    else
      pure .missingData
  else
    pure .missingData

/-- The whole extraction block (`app.py` lines 140-175): the inner body
under `try`, with `except Exception as format_error` turning any raised
exception into the error display together with the raw `result`. -/
def extractPrediction (result : Json) : ExtractOutcome :=
  match extractBody result with
  | .ok (.prediction raw housePrice) => .prediction raw housePrice
  | .ok .missingData => .missingData
  | .ok (.missingPredictionField p) => .missingPredictionField p
  | .error e => .extractionError e result

/-- The request payload (`app.py` lines 111-123): one row, the constant
index 0 followed by the eight features in source order. -/
def payload (medInc houseAge aveRooms aveBedrms population aveOccup
    latitude longitude : ℚ) : Json :=
  Json.obj [("data", Json.arr [Json.arr [
    Json.num 0,
    Json.num medInc,
    Json.num houseAge,
    Json.num aveRooms,
    Json.num aveBedrms,
    Json.num population,
    Json.num aveOccup,
    Json.num latitude,
    Json.num longitude
  ]])]

/-- The Authorization header value (`app.py` line 110):
`f'Snowflake Token="{pat}"'`. -/
def authHeaderValue (pat : String) : String :=
  "Snowflake Token=\"" ++ pat ++ "\""

/-- The request headers (`app.py` line 110). -/
def headers (pat : String) : List (String × String) :=
  [("Authorization", authHeaderValue pat)]

/-- The outbound HTTP POST issued by `requests.post` (`app.py`
lines 126-131). -/
structure HttpRequest where
  url : String
  requestHeaders : List (String × String)
  body : Json
  timeout : Nat

/-- The full request built per submission (`app.py` lines 110-131). -/
def buildScoringRequest (scoringEndpoint pat : String)
    (medInc houseAge aveRooms aveBedrms population aveOccup
      latitude longitude : ℚ) : HttpRequest :=
  { url := scoringEndpoint
    requestHeaders := headers pat
    body := payload medInc houseAge aveRooms aveBedrms population aveOccup
      latitude longitude
    timeout := 30 }

/-- How the single `requests.post` call can come back: a response with a
status code, a body text and a parsed JSON body, or one of the raised
transport exceptions (`requests.exceptions.Timeout`,
`requests.exceptions.ConnectionError`, or any other `Exception` with its
message). -/
inductive TransportOutcome where
  | response (status : Nat) (text : String) (json : Json) : TransportOutcome
  | timeoutExn : TransportOutcome
  | connectionExn : TransportOutcome
  | otherExn (msg : String) : TransportOutcome

/-- The classified outcome the user sees from `ScoringClient`
(`app.py` lines 133, 181-190): the parsed 200 body handed on to
extraction, or one of the four distinct failure displays. -/
inductive ClientOutcome where
  | ok (body : Json) : ClientOutcome
  | httpError (status : Nat) (body : String) : ClientOutcome
  | timeoutError : ClientOutcome
  | connectionFailure : ClientOutcome
  | unknownTransportError (msg : String) : ClientOutcome

/-- The classification in `app.py`: line 133 `if response.status_code ==
200` with the `else` at lines 181-183 showing `response.status_code` and
`response.text`, and the three `except` arms at lines 185-190. -/
def classifyTransport (o : TransportOutcome) : ClientOutcome :=
  match o with
  | .response status text json =>
    if status == 200 then .ok json
    else .httpError status text
  | .timeoutExn => .timeoutError
  | .connectionExn => .connectionFailure
  | .otherExn msg => .unknownTransportError msg

/-! Helper lemmas shared by the claim theorems below. -/

theorem dictGet_singleton (k : String) (v : Json) : dictGet [(k, v)] k = some v := by
  simp [dictGet]

/-- Generic success shape: when the first row of "data" is a pair whose
second component is a dict binding "output_feature_0" to a number `q`,
extraction yields the prediction `q` with house price `q * 100000`,
whatever the row index and the trailing rows are. -/
theorem extract_ok_of_key (i : Json) (fields : List (String × Json))
    (rest : List Json) (q : ℚ)
    (h : dictGet fields "output_feature_0" = some (Json.num q)) :
    extractPrediction
      (Json.obj [("data", Json.arr (Json.arr [i, Json.obj fields] :: rest))])
      = ExtractOutcome.prediction q (q * 100000) := by
  simp [extractPrediction, extractBody, pyContains, pySubscript, pyLen,
    pyIndex, pyToNumber, dictGet_singleton, h, bind, Except.bind, pure,
    Except.pure]

theorem pyIndex_arr_zero (x : Json) (xs : List Json) :
    pyIndex (Json.arr (x :: xs)) 0 = Except.ok x := rfl

/-- C1: For every 200 response whose body is `{"data": [[i, p]]}` where
`p` is a mapping binding "output_feature_0" to a number `r`, extraction
succeeds and returns the prediction with raw value `r` and house price
`r * 100000`. -/
theorem C1_extract_round_trip (i : Json) (fields : List (String × Json)) (q : ℚ)
    (h : dictGet fields "output_feature_0" = some (Json.num q)) :
    extractPrediction
      (Json.obj [("data", Json.arr [Json.arr [i, Json.obj fields]])])
      = ExtractOutcome.prediction q (q * 100000) :=
  extract_ok_of_key i fields [] q h

/-- Witness for C1 at the spec's example: raw 2.5, house price 250000. -/
theorem C1_extract_round_trip_witness :
    dictGet [("output_feature_0", Json.num (5/2))] "output_feature_0"
        = some (Json.num (5/2))
    ∧ extractPrediction (Json.obj [("data", Json.arr [Json.arr
        [Json.num 0, Json.obj [("output_feature_0", Json.num (5/2))]]])])
        = ExtractOutcome.prediction (5/2) 250000 := by
  refine ⟨rfl, ?_⟩
  rw [C1_extract_round_trip (Json.num 0)
    [("output_feature_0", Json.num (5/2))] (5/2) rfl]
  norm_num

/-- C2 counterexample: at the 200 response `{"data": [[]]}` (non-empty
"data", first row an empty sequence), extraction does not produce a
distinct MalformedRow classification — no such outcome exists in the
code — but lands in the generic caught-exception branch, reported as
the extraction-error display with the raw response. -/
theorem C2_malformed_row_counterexample :
    extractPrediction (Json.obj [("data", Json.arr [Json.arr []])])
      = ExtractOutcome.extractionError PyError.indexError
          (Json.obj [("data", Json.arr [Json.arr []])]) := rfl

/-- C2 amended: for every 200 response with a non-empty "data" sequence
whose first element does not support subscripting at position 1 (an
empty row, a 1-element row, or a non-sequence value), the access raises
and the generic handler reports the extraction error together with the
raw response; no exception escapes and no separate MalformedRow
classification exists. -/
theorem C2_malformed_row_generic_error (row : Json) (rest : List Json)
    (e : PyError) (h : pyIndex row 1 = Except.error e) :
    extractPrediction (Json.obj [("data", Json.arr (row :: rest))])
      = ExtractOutcome.extractionError e
          (Json.obj [("data", Json.arr (row :: rest))]) := by
  simp [extractPrediction, extractBody, pyContains, pySubscript, pyLen,
    pyIndex_arr_zero, dictGet_singleton, h, bind, Except.bind, pure,
    Except.pure]

/-- Witness for the amended C2 at the empty first row. -/
theorem C2_malformed_row_generic_error_witness :
    pyIndex (Json.arr []) 1 = Except.error PyError.indexError
    ∧ extractPrediction (Json.obj [("data", Json.arr [Json.arr []])])
        = ExtractOutcome.extractionError PyError.indexError
            (Json.obj [("data", Json.arr [Json.arr []])]) :=
  ⟨rfl, C2_malformed_row_generic_error (Json.arr []) [] PyError.indexError rfl⟩

/-- C3: the payload is exactly `{"data": [[0, f1, ..., f8]]}`: one row,
the constant index 0 first, then the eight features unchanged in the
fixed source order; the row has length 9. -/
theorem C3_payload_shape (f1 f2 f3 f4 f5 f6 f7 f8 : ℚ) :
    payload f1 f2 f3 f4 f5 f6 f7 f8
      = Json.obj [("data", Json.arr [Json.arr
          (Json.num 0 :: [f1, f2, f3, f4, f5, f6, f7, f8].map Json.num)])]
    ∧ (Json.num 0 :: [f1, f2, f3, f4, f5, f6, f7, f8].map Json.num).length = 9 :=
  ⟨rfl, by simp⟩

/-- C4: the scoring client's classification never merges failure modes:
a timeout yields the timeout display, a connection failure its own
display, a non-200 status the HTTP-error display with status and body
preserved verbatim (in particular 500 with body "server error"), and
any other exception the unknown-error display with its message; the
five classifications are pairwise distinct. -/
theorem C4_transport_classification :
    classifyTransport TransportOutcome.timeoutExn = ClientOutcome.timeoutError
    ∧ classifyTransport TransportOutcome.connectionExn
        = ClientOutcome.connectionFailure
    ∧ (∀ (status : Nat) (text : String) (body : Json), status ≠ 200 →
        classifyTransport (TransportOutcome.response status text body)
          = ClientOutcome.httpError status text)
    ∧ classifyTransport (TransportOutcome.response 500 "server error" Json.null)
        = ClientOutcome.httpError 500 "server error"
    ∧ (∀ msg, classifyTransport (TransportOutcome.otherExn msg)
        = ClientOutcome.unknownTransportError msg)
    ∧ (ClientOutcome.timeoutError ≠ ClientOutcome.connectionFailure
        ∧ ClientOutcome.timeoutError ≠ ClientOutcome.httpError 500 "server error"
        ∧ ClientOutcome.timeoutError ≠ ClientOutcome.unknownTransportError "boom"
        ∧ ClientOutcome.connectionFailure ≠ ClientOutcome.httpError 500 "server error"
        ∧ ClientOutcome.connectionFailure ≠ ClientOutcome.unknownTransportError "boom"
        ∧ ClientOutcome.httpError 500 "server error"
            ≠ ClientOutcome.unknownTransportError "boom") := by
  refine ⟨rfl, rfl, ?_, rfl, fun _ => rfl, ?_⟩
  · intro status text body h
    simp [classifyTransport, beq_iff_eq, h]
  · refine ⟨?_, ?_, ?_, ?_, ?_, ?_⟩ <;> exact fun h => ClientOutcome.noConfusion h

/-- Witness for C4 at status 500 with body "server error". -/
theorem C4_transport_classification_witness :
    (500 : Nat) ≠ 200
    ∧ classifyTransport (TransportOutcome.response 500 "server error" Json.null)
        = ClientOutcome.httpError 500 "server error" :=
  ⟨by decide,
    C4_transport_classification.2.2.1 500 "server error" Json.null (by decide)⟩

/-- C5: a 200 body that is an object with no "data" key, or whose
"data" key holds the empty sequence, yields the missing-data outcome
(and, extraction being a total function, nothing is raised). -/
theorem C5_missing_data (fields : List (String × Json)) :
    (dictGet fields "data" = none →
      extractPrediction (Json.obj fields) = ExtractOutcome.missingData)
    ∧ (dictGet fields "data" = some (Json.arr []) →
      extractPrediction (Json.obj fields) = ExtractOutcome.missingData) := by
  constructor
  · intro h
    simp [extractPrediction, extractBody, pyContains, h, bind, Except.bind,
      pure, Except.pure]
  · intro h
    simp [extractPrediction, extractBody, pyContains, pySubscript, pyLen, h,
      bind, Except.bind, pure, Except.pure]

/-- Witness for C5: an object without "data", and `{"data": []}`. -/
theorem C5_missing_data_witness :
    extractPrediction (Json.obj []) = ExtractOutcome.missingData
    ∧ extractPrediction (Json.obj [("data", Json.arr [])])
        = ExtractOutcome.missingData :=
  ⟨(C5_missing_data []).1 rfl, (C5_missing_data [("data", Json.arr [])]).2 rfl⟩

/-- C6: when the first data row's second element is a mapping lacking
"output_feature_0", extraction yields the missing-prediction-field
outcome carrying that very mapping, unchanged, for display. -/
theorem C6_missing_prediction_field (i : Json) (fields : List (String × Json))
    (rest : List Json) (h : dictGet fields "output_feature_0" = none) :
    extractPrediction (Json.obj [("data",
        Json.arr (Json.arr [i, Json.obj fields] :: rest))])
      = ExtractOutcome.missingPredictionField (Json.obj fields) := by
  simp [extractPrediction, extractBody, pyContains, pySubscript, pyLen,
    pyIndex, dictGet_singleton, h, bind, Except.bind, pure, Except.pure]

/-- Witness for C6 at the spec's example `{"data":[[0,{"wrong_field": 1.0}]]}`. -/
theorem C6_missing_prediction_field_witness :
    dictGet [("wrong_field", Json.num 1)] "output_feature_0" = none
    ∧ extractPrediction (Json.obj [("data", Json.arr [Json.arr
        [Json.num 0, Json.obj [("wrong_field", Json.num 1)]]])])
        = ExtractOutcome.missingPredictionField
            (Json.obj [("wrong_field", Json.num 1)]) :=
  ⟨rfl, C6_missing_prediction_field (Json.num 0) [("wrong_field", Json.num 1)] [] rfl⟩

/-- C7: extraction is total and classified: every JSON response body
yields a prediction, the missing-data outcome, the
missing-prediction-field outcome, or the caught-exception outcome
carrying the original raw response; no exception propagates. -/
theorem C7_extraction_classified (result : Json) :
    (∃ raw hp, extractPrediction result = ExtractOutcome.prediction raw hp)
    ∨ extractPrediction result = ExtractOutcome.missingData
    ∨ (∃ p, extractPrediction result = ExtractOutcome.missingPredictionField p)
    ∨ (∃ e, extractPrediction result = ExtractOutcome.extractionError e result) := by
  unfold extractPrediction
  cases hE : extractBody result with
  | error e => exact Or.inr (Or.inr (Or.inr ⟨e, rfl⟩))
  | ok o =>
    cases o with
    | prediction raw hp => exact Or.inl ⟨raw, hp, rfl⟩
    | missingData => exact Or.inr (Or.inl rfl)
    | missingPredictionField p => exact Or.inr (Or.inr (Or.inl ⟨p, rfl⟩))

/-- C8: the request carries exactly one header, Authorization, whose
value is the exact quoted-token format `Snowflake Token="<pat>"`; the
rest of the request (URL, body, timeout) is independent of the token,
so the header is the only place the token appears. -/
theorem C8_auth_header (scoringEndpoint pat : String)
    (f1 f2 f3 f4 f5 f6 f7 f8 : ℚ) :
    (buildScoringRequest scoringEndpoint pat
        f1 f2 f3 f4 f5 f6 f7 f8).requestHeaders
      = [("Authorization", "Snowflake Token=\"" ++ pat ++ "\"")]
    ∧ ∀ pat2 : String,
        (buildScoringRequest scoringEndpoint pat2
            f1 f2 f3 f4 f5 f6 f7 f8).url
          = (buildScoringRequest scoringEndpoint pat
              f1 f2 f3 f4 f5 f6 f7 f8).url
        ∧ (buildScoringRequest scoringEndpoint pat2
            f1 f2 f3 f4 f5 f6 f7 f8).body
          = (buildScoringRequest scoringEndpoint pat
              f1 f2 f3 f4 f5 f6 f7 f8).body
        ∧ (buildScoringRequest scoringEndpoint pat2
            f1 f2 f3 f4 f5 f6 f7 f8).timeout
          = (buildScoringRequest scoringEndpoint pat
              f1 f2 f3 f4 f5 f6 f7 f8).timeout :=
  ⟨rfl, fun _ => ⟨rfl, rfl, rfl⟩⟩

/-- C9: extraction is lenient: whenever two 200 responses bind
"output_feature_0" of the first row's payload to the same number —
whatever the row index, any trailing rows, and any extra payload keys —
both extract to the same prediction. -/
theorem C9_extraction_leniency (i1 i2 : Json) (rest1 rest2 : List Json)
    (fields1 fields2 : List (String × Json)) (q : ℚ)
    (h1 : dictGet fields1 "output_feature_0" = some (Json.num q))
    (h2 : dictGet fields2 "output_feature_0" = some (Json.num q)) :
    extractPrediction (Json.obj [("data",
        Json.arr (Json.arr [i1, Json.obj fields1] :: rest1))])
      = ExtractOutcome.prediction q (q * 100000)
    ∧ extractPrediction (Json.obj [("data",
        Json.arr (Json.arr [i2, Json.obj fields2] :: rest2))])
      = extractPrediction (Json.obj [("data",
        Json.arr (Json.arr [i1, Json.obj fields1] :: rest1))]) := by
  have e1 := extract_ok_of_key i1 fields1 rest1 q h1
  have e2 := extract_ok_of_key i2 fields2 rest2 q h2
  exact ⟨e1, by rw [e1, e2]⟩

/-- Witness for C9: changed row index, an extra payload key and an
extra trailing row leave the prediction unchanged. -/
theorem C9_extraction_leniency_witness :
    extractPrediction (Json.obj [("data", Json.arr [Json.arr
        [Json.num 0, Json.obj [("output_feature_0", Json.num (5/2))]]])])
      = ExtractOutcome.prediction (5/2) ((5/2) * 100000)
    ∧ extractPrediction (Json.obj [("data", Json.arr [Json.arr
        [Json.num 7, Json.obj [("output_feature_0", Json.num (5/2)),
          ("extra", Json.str "x")]],
        Json.arr [Json.num 1, Json.null]])])
      = extractPrediction (Json.obj [("data", Json.arr [Json.arr
        [Json.num 0, Json.obj [("output_feature_0", Json.num (5/2))]]])]) :=
  C9_extraction_leniency (Json.num 0) (Json.num 7) []
    [Json.arr [Json.num 1, Json.null]]
    [("output_feature_0", Json.num (5/2))]
    [("output_feature_0", Json.num (5/2)), ("extra", Json.str "x")]
    (5/2) rfl rfl

/-- C10: when the first data row's second element exists but is not a
mapping, extraction yields the missing-prediction-field outcome
carrying that value — not a malformed-row outcome, not the
caught-exception outcome, and no exception escapes. -/
theorem C10_non_mapping_payload (i v : Json) (rest : List Json)
    (h : v.isObj = false) :
    extractPrediction (Json.obj [("data", Json.arr (Json.arr [i, v] :: rest))])
      = ExtractOutcome.missingPredictionField v := by
  cases v <;> simp_all [extractPrediction, extractBody, pyContains,
    pySubscript, pyLen, pyIndex, Json.isObj, dictGet_singleton, bind,
    Except.bind, pure, Except.pure]

/-- Witness for C10 at a numeric (non-mapping) second element. -/
theorem C10_non_mapping_payload_witness :
    (Json.num 7).isObj = false
    ∧ extractPrediction (Json.obj [("data", Json.arr [Json.arr
        [Json.num 0, Json.num 7]])])
        = ExtractOutcome.missingPredictionField (Json.num 7) :=
  ⟨rfl, C10_non_mapping_payload (Json.num 0) (Json.num 7) [] rfl⟩
